import Mathlib

/-!
Shallow embedding of the weather-alerts subscription service (src/main.py).

The service has two handlers:
* `POST /subscribe` (function `subscribe`, main.py lines 11-54): validates an
  inbound JSON record and, on success, appends one row to the external store.
* `GET /users` (function `get_users`, main.py lines 56-62): reads all rows.

The external BigQuery store is modelled as a list of rows (`List Record`);
the gateway functions `user_exists`, `save_user_to_bigquery` and
`get_users_from_bigquery` are embedded over that list.  Store-level insertion
errors are an input of the model (`insertErrors`), since they are produced by
the external store; main.py only logs them (lines 90-92).
-/

/-- A JSON value as the handler can receive it: null, boolean, integer,
string, or array.  (Nested objects are never inspected by the code and are
omitted; an array can itself hold any values.) -/
inductive JValue where
  | jnull : JValue
  | jbool : Bool → JValue
  | jnum : Int → JValue
  | jstr : String → JValue
  | jlist : List JValue → JValue

mutual

/-- Structural equality of JSON values (Python `==` between JSON-shaped
values, used by the store filter and by list membership tests). -/
def JValue.beq : JValue → JValue → Bool
  | .jnull, .jnull => true
  | .jbool a, .jbool b => a == b
  | .jnum a, .jnum b => a == b
  | .jstr a, .jstr b => a == b
  | .jlist xs, .jlist ys => JValue.beqList xs ys
  | _, _ => false

/-- Elementwise equality of JSON arrays. -/
def JValue.beqList : List JValue → List JValue → Bool
  | [], [] => true
  | x :: xs, y :: ys => JValue.beq x y && JValue.beqList xs ys
  | _, _ => false

end

mutual

/-- `JValue.beq` decides propositional equality. -/
theorem JValue.beq_iff_eq : (a b : JValue) → (JValue.beq a b = true ↔ a = b)
  | .jnull, b => by cases b <;> simp [JValue.beq]
  | .jbool x, b => by cases b <;> simp [JValue.beq]
  | .jnum x, b => by cases b <;> simp [JValue.beq]
  | .jstr x, b => by cases b <;> simp [JValue.beq]
  | .jlist xs, b => by
      cases b with
      | jnull => simp [JValue.beq]
      | jbool y => simp [JValue.beq]
      | jnum y => simp [JValue.beq]
      | jstr y => simp [JValue.beq]
      | jlist ys => simp [JValue.beq, JValue.beqList_iff_eq xs ys]

/-- `JValue.beqList` decides propositional list equality. -/
theorem JValue.beqList_iff_eq : (xs ys : List JValue) → (JValue.beqList xs ys = true ↔ xs = ys)
  | [], [] => by simp [JValue.beqList]
  | [], _ :: _ => by simp [JValue.beqList]
  | _ :: _, [] => by simp [JValue.beqList]
  | x :: xs, y :: ys => by
      simp [JValue.beqList, JValue.beq_iff_eq x y, JValue.beqList_iff_eq xs ys]

end

instance : DecidableEq JValue := fun a b =>
  decidable_of_iff (JValue.beq a b = true) (JValue.beq_iff_eq a b)

/-- Python truthiness of a JSON value: None, False, 0, the empty string and
the empty list are falsy, everything else truthy.  Used by main.py line 37
(`if not email_id and not phone_number`). -/
def JValue.truthy : JValue → Bool
  | .jnull => false
  | .jbool b => b
  | .jnum n => n != 0
  | .jstr s => s != ""
  | .jlist xs => !xs.isEmpty

/-- `isinstance(v, list)` (main.py line 43). -/
def JValue.isList : JValue → Bool
  | .jlist _ => true
  | _ => false

/-- The elements of a list value (empty for a non-list; only consulted after
the `isinstance` guard). -/
def JValue.items : JValue → List JValue
  | .jlist xs => xs
  | _ => []

/-- A parsed JSON object body: field names mapped to values.  Keys are
unique in a Python dict; lookup takes the first binding. -/
abbrev Dict := List (String × JValue)

/-- Python `field in data` for a dict: key membership (main.py line 24). -/
def pyIn (data : Dict) (field : String) : Bool :=
  data.any (fun p => p.1 = field)

/-- Key lookup in a dict, `none` when the key is absent. -/
def dictFind (data : Dict) (field : String) : Option JValue :=
  (data.find? (fun p => p.1 = field)).map (fun p => p.2)

/-- Python `data.get(field)`: the value, or None when absent
(main.py lines 34-35). -/
def pyGet (data : Dict) (field : String) : JValue :=
  (dictFind data field).getD JValue.jnull

/-- Python `data.get(field, default)` (main.py line 47). -/
def pyGetD (data : Dict) (field : String) (default : JValue) : JValue :=
  (dictFind data field).getD default

/-- Python `data[field]` (main.py lines 27, 41, 52).  In the handler this is
only evaluated after the presence check of line 24, so the `jnull` fallback
for an absent key is never reached on those paths. -/
def pyIndex (data : Dict) (field : String) : JValue :=
  (dictFind data field).getD JValue.jnull

/-- One stored row, with the exact field set built at main.py lines 80-89. -/
structure Record where
  user_id : JValue
  email_id : JValue
  phone_number : JValue
  location : JValue
  notification_method : JValue
  preferred_units : JValue
deriving DecidableEq

/-- An HTTP response: status code and the message carried in the JSON body
(the `error` string of a 400, or the `message` string of the 201). -/
structure Response where
  status : Nat
  body : String
deriving DecidableEq

def errMissing : Response := ⟨400, "Missing required fields"⟩
def errDuplicate : Response := ⟨400, "User ID already exists. Please choose a different one."⟩
def errContact : Response := ⟨400, "Either email_id or phone number is required."⟩
def errMethod : Response := ⟨400, "Invalid notification method. Choose email or SMS."⟩
def errUnits : Response := ⟨400, "Invalid preferred_units. Choose Celsius or Fahrenheit."⟩
def okSubscribed : Response := ⟨201, "User subscribed successfully!"⟩

/-- main.py line 23. -/
def required_fields : List String := ["user_id", "location", "notification_method"]

/-- Gateway count query of `user_exists` (main.py lines 64-77): number of
stored rows whose user_id equals the queried one. -/
def countByUserId (store : List Record) (uid : JValue) : Nat :=
  (store.filter (fun r => r.user_id = uid)).length

/-- main.py line 77: `user_count > 0`. -/
def user_exists (store : List Record) (uid : JValue) : Bool :=
  decide (0 < countByUserId store uid)

/-- main.py line 42. -/
def valid_methods : List String := ["email", "SMS"]

/-- Python `method in valid_methods` (main.py line 43): equality against the
two allowed strings; a non-string value equals neither. -/
def validMethodElem : JValue → Bool
  | .jstr s => valid_methods.any (fun m => m = s)
  | _ => false

/-- The whole condition guarding main.py line 44, negated: the value is a
list and every element is a valid method.  (`all` over an empty list is
vacuously true, so the empty list passes.) -/
def validNotification (nm : JValue) : Bool :=
  nm.isList && nm.items.all validMethodElem

/-- Python `preferred_units in ["Celsius", "Fahrenheit"]` (main.py line 48). -/
def validUnits : JValue → Bool
  | .jstr s => s = "Celsius" || s = "Fahrenheit"
  | _ => false

/-- Check 1 (main.py line 24): all required fields present as keys. -/
def check_required (data : Dict) : Bool :=
  required_fields.all (fun f => pyIn data f)

/-- Check 2 (main.py line 30), stated positively: user_id not yet stored. -/
def check_unique (store : List Record) (data : Dict) : Bool :=
  !user_exists store (pyIndex data "user_id")

/-- Check 3 (main.py line 37), stated positively: some contact value truthy. -/
def check_contact (data : Dict) : Bool :=
  (pyGet data "email_id").truthy || (pyGet data "phone_number").truthy

/-- Check 4 (main.py line 43), stated positively. -/
def check_method (data : Dict) : Bool :=
  validNotification (pyIndex data "notification_method")

/-- Check 5 (main.py line 48), stated positively, on the value after the
default of line 47 was applied. -/
def check_units (data : Dict) : Bool :=
  validUnits (pyGetD data "preferred_units" (JValue.jstr "Celsius"))

/-- The row built at main.py lines 80-88 from the validated request. -/
def recordOf (data : Dict) : Record :=
  { user_id := pyIndex data "user_id"
    email_id := pyGet data "email_id"
    phone_number := pyGet data "phone_number"
    location := pyIndex data "location"
    notification_method := pyIndex data "notification_method"
    preferred_units := pyGetD data "preferred_units" (JValue.jstr "Celsius") }

/-- What one call of the subscribe handler produced: the HTTP response, the
row passed to the store insert (`none` when no insert call was made), and
the log lines printed. -/
structure SubscribeResult where
  response : Response
  inserted : Option Record
  log : List String
deriving DecidableEq

/-- The log line of main.py line 92, emitted iff the insert reported errors
(`if errors:` on a list means: the list is nonempty). -/
def insertLog (insertErrors : List String) : List String :=
  if insertErrors.isEmpty then [] else ["Encountered errors while inserting rows"]

/-- The subscribe handler body (main.py lines 20-54) on a parsed dict body.
`insertErrors` is the error list the external store returns from
`insert_rows_json` (main.py line 90); the handler only logs it. -/
def subscribeCore (store : List Record) (data : Dict) (insertErrors : List String) :
    SubscribeResult :=
  if !check_required data then ⟨errMissing, none, []⟩
  else if !check_unique store data then ⟨errDuplicate, none, []⟩
  else if !check_contact data then ⟨errContact, none, []⟩
  else if !check_method data then ⟨errMethod, none, []⟩
  else if !check_units data then ⟨errUnits, none, []⟩
  else ⟨okSubscribed, some (recordOf data), insertLog insertErrors⟩

/-- The full subscribe handler over the parsed request body, which is `none`
when the request carried no JSON object (Flask `request.json`, main.py
line 20).  Line 24 then evaluates `field in None`, which raises an
unhandled TypeError; that exception is the `Except.error` branch. -/
def subscribe (store : List Record) (body : Option Dict) (insertErrors : List String) :
    Except String SubscribeResult :=
  match body with
  | none => Except.error "TypeError: argument of type NoneType is not iterable"
  | some data => Except.ok (subscribeCore store data insertErrors)

/-- The store contents after a handler call: the row passed to
`insert_rows_json` appended, when there was one. -/
def storeAfter (store : List Record) (res : SubscribeResult) : List Record :=
  store ++ res.inserted.toList

/-- Gateway full-table scan (main.py lines 94-98): every stored row. -/
def get_users_from_bigquery (store : List Record) : List Record :=
  store

/-- The GET /users handler (main.py lines 56-62): returns the scan result
and leaves the store as it was (it issues no mutation). -/
def get_users (store : List Record) : List Record × List Record :=
  (get_users_from_bigquery store, store)

/-! Concrete request bodies and stores used to exercise the handler. -/

/-- A fully valid request (spec section 8, end-to-end scenario 1). -/
def goodData : Dict :=
  [("user_id", JValue.jstr "u1"), ("location", JValue.jstr "NYC"),
   ("notification_method", JValue.jlist [JValue.jstr "email"]),
   ("email_id", JValue.jstr "a@b.com")]

/-- Valid except that notification_method is the empty list. -/
def emptyMethodData : Dict :=
  [("user_id", JValue.jstr "u1"), ("location", JValue.jstr "NYC"),
   ("notification_method", JValue.jlist []),
   ("email_id", JValue.jstr "a@b.com")]

/-- A store already holding the row that `goodData` produces (user u1). -/
def store1 : List Record := [recordOf goodData]

/-- Same user u1, but the required field location is absent. -/
def dataMissingLoc : Dict :=
  [("user_id", JValue.jstr "u1"),
   ("notification_method", JValue.jlist [JValue.jstr "email"]),
   ("email_id", JValue.jstr "a@b.com")]

/-- Required fields present, but neither email_id nor phone_number. -/
def dataNoContact : Dict :=
  [("user_id", JValue.jstr "u3"), ("location", JValue.jstr "LA"),
   ("notification_method", JValue.jlist [JValue.jstr "SMS"])]

/-- preferred_units present and invalid, and location absent. -/
def dataKelvinNoLoc : Dict :=
  [("user_id", JValue.jstr "u9"),
   ("notification_method", JValue.jlist [JValue.jstr "email"]),
   ("email_id", JValue.jstr "a"),
   ("preferred_units", JValue.jstr "Kelvin")]

/-- An otherwise valid request with invalid preferred_units. -/
def dataKelvinFull : Dict :=
  [("user_id", JValue.jstr "u9"), ("location", JValue.jstr "LA"),
   ("notification_method", JValue.jlist [JValue.jstr "email"]),
   ("email_id", JValue.jstr "a"),
   ("preferred_units", JValue.jstr "Kelvin")]

/-- user_id is present as a key but holds the empty string. -/
def dataEmptyUserId : Dict :=
  [("user_id", JValue.jstr ""), ("location", JValue.jstr "X"),
   ("notification_method", JValue.jlist [JValue.jstr "SMS"]),
   ("email_id", JValue.jstr "e")]

/-- A store already holding a row whose user_id is the empty string. -/
def storeEmptyId : List Record := [recordOf dataEmptyUserId]

/-- email_id present but the empty string, and no phone_number key. -/
def dataEmptyEmail : Dict :=
  [("user_id", JValue.jstr "u2"), ("location", JValue.jstr "LA"),
   ("notification_method", JValue.jlist [JValue.jstr "email"]),
   ("email_id", JValue.jstr "")]

/-! Helper lemmas about dict lookup and the handler branches. -/

/-- A key that is not in the dict looks up to nothing. -/
theorem dictFind_of_not_in (data : Dict) (f : String) (h : pyIn data f = false) :
    dictFind data f = none := by
  unfold dictFind
  rw [List.find?_eq_none.mpr]
  · rfl
  · intro p hp hpf
    simp only [decide_eq_true_eq] at hpf
    have hall : ∀ a b, (a, b) ∈ data → ¬ a = f := by simpa [pyIn] using h
    exact hall p.1 p.2 (by simpa using hp) hpf

/-- Python data.get on an absent key yields None. -/
theorem pyGet_of_not_in (data : Dict) (f : String) (h : pyIn data f = false) :
    pyGet data f = JValue.jnull := by
  unfold pyGet
  rw [dictFind_of_not_in data f h]
  rfl

/-- Python data.get with a default on an absent key yields the default. -/
theorem pyGetD_of_not_in (data : Dict) (f : String) (d : JValue)
    (h : pyIn data f = false) : pyGetD data f d = d := by
  unfold pyGetD
  rw [dictFind_of_not_in data f h]
  rfl

/-- Python data.get with a default on a present key yields the stored value. -/
theorem pyGetD_of_in (data : Dict) (f : String) (d : JValue)
    (h : pyIn data f = true) : pyGetD data f d = pyIndex data f := by
  unfold pyGetD pyIndex
  simp only [pyIn, List.any_eq_true] at h
  rcases h with ⟨p, hp, hpf⟩
  have : (data.find? (fun q => q.1 = f)).isSome := by
    apply List.find?_isSome.mpr
    exact ⟨p, hp, hpf⟩
  rcases Option.isSome_iff_exists.mp this with ⟨q, hq⟩
  simp [dictFind, hq]

/-- Branch lemma: a missing required field short-circuits the handler. -/
theorem subscribeCore_required_false (store : List Record) (data : Dict)
    (errs : List String) (h : check_required data = false) :
    subscribeCore store data errs = ⟨errMissing, none, []⟩ := by
  simp [subscribeCore, h]

/-- Branch lemma: an existing user_id short-circuits after check 1. -/
theorem subscribeCore_unique_false (store : List Record) (data : Dict)
    (errs : List String) (h1 : check_required data = true)
    (h2 : check_unique store data = false) :
    subscribeCore store data errs = ⟨errDuplicate, none, []⟩ := by
  simp [subscribeCore, h1, h2]

/-- Branch lemma: no truthy contact field short-circuits after check 2. -/
theorem subscribeCore_contact_false (store : List Record) (data : Dict)
    (errs : List String) (h1 : check_required data = true)
    (h2 : check_unique store data = true) (h3 : check_contact data = false) :
    subscribeCore store data errs = ⟨errContact, none, []⟩ := by
  simp [subscribeCore, h1, h2, h3]

/-- Branch lemma: an invalid notification_method short-circuits after check 3. -/
theorem subscribeCore_method_false (store : List Record) (data : Dict)
    (errs : List String) (h1 : check_required data = true)
    (h2 : check_unique store data = true) (h3 : check_contact data = true)
    (h4 : check_method data = false) :
    subscribeCore store data errs = ⟨errMethod, none, []⟩ := by
  simp [subscribeCore, h1, h2, h3, h4]

/-- Branch lemma: invalid preferred_units short-circuits after check 4. -/
theorem subscribeCore_units_false (store : List Record) (data : Dict)
    (errs : List String) (h1 : check_required data = true)
    (h2 : check_unique store data = true) (h3 : check_contact data = true)
    (h4 : check_method data = true) (h5 : check_units data = false) :
    subscribeCore store data errs = ⟨errUnits, none, []⟩ := by
  simp [subscribeCore, h1, h2, h3, h4, h5]

/-- Branch lemma: all five checks passing yields the 201 and the insert. -/
theorem subscribeCore_all_true (store : List Record) (data : Dict)
    (errs : List String) (h1 : check_required data = true)
    (h2 : check_unique store data = true) (h3 : check_contact data = true)
    (h4 : check_method data = true) (h5 : check_units data = true) :
    subscribeCore store data errs = ⟨okSubscribed, some (recordOf data), insertLog errs⟩ := by
  simp [subscribeCore, h1, h2, h3, h4, h5]

/-- Helper: once the required fields are present, the missing-fields error
can no longer be the response. -/
theorem subscribeCore_response_ne_missing (store : List Record) (data : Dict)
    (errs : List String) (h1 : check_required data = true) :
    (subscribeCore store data errs).response ≠ errMissing := by
  cases h2 : check_unique store data with
  | false => rw [subscribeCore_unique_false store data errs h1 h2]; decide
  | true =>
  cases h3 : check_contact data with
  | false => rw [subscribeCore_contact_false store data errs h1 h2 h3]; decide
  | true =>
  cases h4 : check_method data with
  | false => rw [subscribeCore_method_false store data errs h1 h2 h3 h4]; decide
  | true =>
  cases h5 : check_units data with
  | false => rw [subscribeCore_units_false store data errs h1 h2 h3 h4 h5]; decide
  | true =>
      rw [subscribeCore_all_true store data errs h1 h2 h3 h4 h5]
      show okSubscribed ≠ errMissing
      decide

/-- Claim C5: a registration request missing any of user_id, location or
notification_method is answered with the 400 missing-fields error, no insert
call is made, and the store is unchanged. -/
theorem missing_required_fields_rejected (store : List Record) (data : Dict)
    (errs : List String)
    (h : pyIn data "user_id" = false ∨ pyIn data "location" = false ∨
      pyIn data "notification_method" = false) :
    (subscribeCore store data errs).response = errMissing ∧
    (subscribeCore store data errs).response.status = 400 ∧
    (subscribeCore store data errs).inserted = none ∧
    storeAfter store (subscribeCore store data errs) = store := by
  have hc : check_required data = false := by
    rcases h with h | h | h <;> simp [check_required, required_fields, h]
  rw [subscribeCore_required_false store data errs hc]
  refine ⟨rfl, rfl, rfl, by simp [storeAfter]⟩

/-- Witness for C5 at a concrete request missing location. -/
theorem missing_required_fields_rejected_witness :
    pyIn dataMissingLoc "location" = false ∧
    (subscribeCore [] dataMissingLoc []).response = errMissing :=
  ⟨by decide,
   (missing_required_fields_rejected [] dataMissingLoc []
     (Or.inr (Or.inl (by decide)))).1⟩

/-- Claim C6: a registration request lacking both email_id and phone_number
is answered with some 400 response and no insertion occurs. -/
theorem no_contact_rejected (store : List Record) (data : Dict)
    (errs : List String)
    (he : pyIn data "email_id" = false) (hp : pyIn data "phone_number" = false) :
    (subscribeCore store data errs).response.status = 400 ∧
    (subscribeCore store data errs).inserted = none ∧
    storeAfter store (subscribeCore store data errs) = store := by
  have hcc : check_contact data = false := by
    simp [check_contact, pyGet_of_not_in data "email_id" he,
      pyGet_of_not_in data "phone_number" hp, JValue.truthy]
  cases h1 : check_required data with
  | false =>
      rw [subscribeCore_required_false store data errs h1]
      exact ⟨rfl, rfl, by simp [storeAfter]⟩
  | true =>
  cases h2 : check_unique store data with
  | false =>
      rw [subscribeCore_unique_false store data errs h1 h2]
      exact ⟨rfl, rfl, by simp [storeAfter]⟩
  | true =>
      rw [subscribeCore_contact_false store data errs h1 h2 hcc]
      exact ⟨rfl, rfl, by simp [storeAfter]⟩

/-- Witness for C6 at a concrete request with no contact fields. -/
theorem no_contact_rejected_witness :
    pyIn dataNoContact "email_id" = false ∧
    (subscribeCore [] dataNoContact []).response.status = 400 ∧
    (subscribeCore [] dataNoContact []).inserted = none :=
  ⟨by decide,
   (no_contact_rejected [] dataNoContact [] (by decide) (by decide)).1,
   (no_contact_rejected [] dataNoContact [] (by decide) (by decide)).2.1⟩

/-- Claim C8: the listing handler is a pure read: it leaves the store
unchanged, returns exactly the stored records, and a second call with no
intervening write returns the same records. -/
theorem get_users_pure_read (store : List Record) :
    (get_users store).2 = store ∧
    (get_users store).1 = store ∧
    (get_users ((get_users store).2)).1 = (get_users store).1 := by
  simp [get_users, get_users_from_bigquery]

/-- Claim C10: when the parsed request body is None, the handler raises an
unhandled TypeError at the membership test of line 24 instead of answering
with a 400 response. -/
theorem subscribe_none_body_raises (store : List Record) (errs : List String) :
    subscribe store none errs =
      Except.error "TypeError: argument of type NoneType is not iterable" := rfl

/-- Claim C2: a request passing all five validation checks is answered 201
with the row handed to the insert, whatever error list the store-level
insert reports; the error list only changes the log. -/
theorem subscribe_ignores_insert_errors (store : List Record) (data : Dict)
    (errs errs2 : List String)
    (h1 : check_required data = true) (h2 : check_unique store data = true)
    (h3 : check_contact data = true) (h4 : check_method data = true)
    (h5 : check_units data = true) :
    (subscribeCore store data errs).response = okSubscribed ∧
    (subscribeCore store data errs).inserted = some (recordOf data) ∧
    (subscribeCore store data errs).response = (subscribeCore store data errs2).response ∧
    (subscribeCore store data errs).log = insertLog errs := by
  rw [subscribeCore_all_true store data errs h1 h2 h3 h4 h5,
    subscribeCore_all_true store data errs2 h1 h2 h3 h4 h5]
  exact ⟨rfl, rfl, rfl, rfl⟩

/-- Witness for C2: the fully valid request is accepted even when the store
reports an insertion error. -/
theorem subscribe_ignores_insert_errors_witness :
    check_required goodData = true ∧
    (subscribeCore [] goodData ["insert failed"]).response = okSubscribed :=
  ⟨by decide,
   (subscribe_ignores_insert_errors [] goodData ["insert failed"] []
     (by decide) (by decide) (by decide) (by decide) (by decide)).1⟩

/-- Claim C3: the five validation checks are applied in the order required
fields, uniqueness, contact, notification method, units; the response is
exactly the error of the first failing check (the 201 only when all pass),
a failed presence check makes the result independent of the store (the
existence query of check 2 has no effect then), and the five error
responses are pairwise distinct 400 responses. -/
theorem subscribe_validation_order (store : List Record) (data : Dict)
    (errs : List String) :
    ((subscribeCore store data errs).response = errMissing ↔
      check_required data = false) ∧
    ((subscribeCore store data errs).response = errDuplicate ↔
      (check_required data = true ∧ check_unique store data = false)) ∧
    ((subscribeCore store data errs).response = errContact ↔
      (check_required data = true ∧ check_unique store data = true ∧
        check_contact data = false)) ∧
    ((subscribeCore store data errs).response = errMethod ↔
      (check_required data = true ∧ check_unique store data = true ∧
        check_contact data = true ∧ check_method data = false)) ∧
    ((subscribeCore store data errs).response = errUnits ↔
      (check_required data = true ∧ check_unique store data = true ∧
        check_contact data = true ∧ check_method data = true ∧
        check_units data = false)) ∧
    ((subscribeCore store data errs).response = okSubscribed ↔
      (check_required data = true ∧ check_unique store data = true ∧
        check_contact data = true ∧ check_method data = true ∧
        check_units data = true)) ∧
    (check_required data = false →
      subscribeCore store data errs = subscribeCore [] data errs) ∧
    List.Pairwise (fun a b => a ≠ b)
      [errMissing, errDuplicate, errContact, errMethod, errUnits] ∧
    (∀ e ∈ [errMissing, errDuplicate, errContact, errMethod, errUnits],
      e.status = 400) := by
  refine ⟨?_, ?_, ?_, ?_, ?_, ?_, ?_, by decide, by decide⟩ <;>
  · cases h1 : check_required data <;>
    cases h2 : check_unique store data <;>
    cases h3 : check_contact data <;>
    cases h4 : check_method data <;>
    cases h5 : check_units data <;>
      simp [subscribeCore, h1, h2, h3, h4, h5, errMissing, errDuplicate,
        errContact, errMethod, errUnits, okSubscribed]

/-- Witness for C3 at a concrete request: scenario 3 of the spec, an
invalid notification method, is answered with exactly that error. -/
theorem subscribe_validation_order_witness :
    (subscribeCore [] dataMissingLoc []).response = errMissing :=
  (subscribe_validation_order [] dataMissingLoc []).1.mpr (by decide)

/-- Claim C4 counterexample: a request whose user_id already exists but
which lacks the required field location is answered with the missing-fields
error, not the duplicate-id error, because check 1 fires first. -/
theorem duplicate_user_counterexample :
    user_exists store1 (pyIndex dataMissingLoc "user_id") = true ∧
    (subscribeCore store1 dataMissingLoc []).response = errMissing ∧
    (subscribeCore store1 dataMissingLoc []).response ≠ errDuplicate := by
  decide

/-- Claim C4 (amended): when the user_id of the request already exists in
the store, where existence is the count query with exact match returning a
positive count, so some stored row carries that user_id, the handler never
inserts and answers some 400; it is the duplicate-id error exactly when the
required-fields check of line 24 passed first. -/
theorem duplicate_user_amended (store : List Record) (data : Dict)
    (errs : List String)
    (h : user_exists store (pyIndex data "user_id") = true) :
    (∃ r ∈ store, r.user_id = pyIndex data "user_id") ∧
    (subscribeCore store data errs).inserted = none ∧
    storeAfter store (subscribeCore store data errs) = store ∧
    (subscribeCore store data errs).response.status = 400 ∧
    (check_required data = true →
      (subscribeCore store data errs).response = errDuplicate) := by
  have hlen : 0 < (store.filter (fun r => r.user_id = pyIndex data "user_id")).length := by
    simpa [user_exists, countByUserId] using h
  obtain ⟨r, hr⟩ := List.exists_mem_of_length_pos hlen
  obtain ⟨hrs, hre⟩ := List.mem_filter.mp hr
  have hex : ∃ r ∈ store, r.user_id = pyIndex data "user_id" :=
    ⟨r, hrs, by simpa using hre⟩
  have hu : check_unique store data = false := by
    simp [check_unique, h]
  cases h1 : check_required data with
  | false =>
      rw [subscribeCore_required_false store data errs h1]
      refine ⟨hex, rfl, by simp [storeAfter], rfl, ?_⟩
      intro hc
      exact absurd hc (by decide)
  | true =>
      rw [subscribeCore_unique_false store data errs h1 hu]
      exact ⟨hex, rfl, by simp [storeAfter], rfl, fun _ => rfl⟩

/-- Witness for C4 (amended): repeating the valid request u1 against a
store already holding u1 yields the duplicate-id error. -/
theorem duplicate_user_amended_witness :
    user_exists store1 (pyIndex goodData "user_id") = true ∧
    (subscribeCore store1 goodData []).response = errDuplicate :=
  ⟨by decide,
   (duplicate_user_amended store1 goodData [] (by decide)).2.2.2.2 (by decide)⟩

/-- Claim C1 counterexample: a request whose notification_method is the
empty list passes every check (Python all over an empty list is vacuously
true), so the handler answers 201 and inserts the row, instead of the
claimed 400 invalid-notification-method rejection. -/
theorem notification_empty_list_accepted :
    pyIndex emptyMethodData "notification_method" = JValue.jlist [] ∧
    (subscribeCore [] emptyMethodData []).response = okSubscribed ∧
    (subscribeCore [] emptyMethodData []).inserted = some (recordOf emptyMethodData) := by
  decide

/-- Claim C1 (amended): the handler answers 201 only if notification_method
is a sequence, possibly empty, whose every element is email or SMS. -/
theorem notification_method_amended (store : List Record) (data : Dict)
    (errs : List String)
    (h : (subscribeCore store data errs).response = okSubscribed) :
    ∃ xs, pyIndex data "notification_method" = JValue.jlist xs ∧
      ∀ v ∈ xs, v = JValue.jstr "email" ∨ v = JValue.jstr "SMS" := by
  cases h1 : check_required data with
  | false =>
      rw [subscribeCore_required_false store data errs h1] at h
      exact absurd h (by decide)
  | true =>
  cases h2 : check_unique store data with
  | false =>
      rw [subscribeCore_unique_false store data errs h1 h2] at h
      exact absurd h (by decide)
  | true =>
  cases h3 : check_contact data with
  | false =>
      rw [subscribeCore_contact_false store data errs h1 h2 h3] at h
      exact absurd h (by decide)
  | true =>
  cases h4 : check_method data with
  | false =>
      rw [subscribeCore_method_false store data errs h1 h2 h3 h4] at h
      exact absurd h (by decide)
  | true =>
      have hm := h4
      unfold check_method validNotification at hm
      rcases hv : pyIndex data "notification_method" with _ | b | n | s | xs <;>
        rw [hv] at hm
      case jnull => simp [JValue.isList] at hm
      case jbool => simp [JValue.isList] at hm
      case jnum => simp [JValue.isList] at hm
      case jstr => simp [JValue.isList] at hm
      case jlist =>
        refine ⟨xs, rfl, ?_⟩
        intro v hvmem
        have hall : ∀ w ∈ xs, validMethodElem w = true := by
          simpa [JValue.isList, JValue.items, List.all_eq_true] using hm
        have hw := hall v hvmem
        rcases v with _ | b2 | n2 | s2 | xs2 <;>
          simp [validMethodElem, valid_methods] at hw
        rcases hw with hws | hws
        · exact Or.inl (by rw [← hws])
        · exact Or.inr (by rw [← hws])

/-- Witness for C1 (amended): the empty-list request is itself a 201 whose
method list, vacuously, has every element in the allowed set. -/
theorem notification_method_amended_witness :
    (subscribeCore [] emptyMethodData []).response = okSubscribed ∧
    ∃ xs, pyIndex emptyMethodData "notification_method" = JValue.jlist xs ∧
      ∀ v ∈ xs, v = JValue.jstr "email" ∨ v = JValue.jstr "SMS" :=
  ⟨by decide, notification_method_amended [] emptyMethodData [] (by decide)⟩

/-- Claim C7 counterexample: a request with an invalid preferred_units that
also lacks the required field location is answered with the missing-fields
error, not the claimed invalid-units error, because check 1 fires first. -/
theorem preferred_units_counterexample :
    pyIn dataKelvinNoLoc "preferred_units" = true ∧
    validUnits (pyIndex dataKelvinNoLoc "preferred_units") = false ∧
    (subscribeCore [] dataKelvinNoLoc []).response = errMissing ∧
    (subscribeCore [] dataKelvinNoLoc []).response ≠ errUnits := by
  decide

/-- Claim C7 (amended): when preferred_units is absent, any row passed to
the store has preferred_units Celsius; when it is present and invalid, no
insertion occurs and the answer is some 400, which is the invalid-units
error exactly when the four earlier checks passed. -/
theorem preferred_units_amended (store : List Record) (data : Dict)
    (errs : List String) :
    (pyIn data "preferred_units" = false →
      ∀ r, (subscribeCore store data errs).inserted = some r →
        r.preferred_units = JValue.jstr "Celsius") ∧
    (pyIn data "preferred_units" = true →
      validUnits (pyIndex data "preferred_units") = false →
      (subscribeCore store data errs).inserted = none ∧
      (subscribeCore store data errs).response.status = 400 ∧
      (check_required data = true → check_unique store data = true →
        check_contact data = true → check_method data = true →
        (subscribeCore store data errs).response = errUnits)) := by
  constructor
  · intro habs r hr
    cases h1 : check_required data with
    | false => rw [subscribeCore_required_false store data errs h1] at hr; simp at hr
    | true =>
    cases h2 : check_unique store data with
    | false => rw [subscribeCore_unique_false store data errs h1 h2] at hr; simp at hr
    | true =>
    cases h3 : check_contact data with
    | false => rw [subscribeCore_contact_false store data errs h1 h2 h3] at hr; simp at hr
    | true =>
    cases h4 : check_method data with
    | false => rw [subscribeCore_method_false store data errs h1 h2 h3 h4] at hr; simp at hr
    | true =>
    cases h5 : check_units data with
    | false => rw [subscribeCore_units_false store data errs h1 h2 h3 h4 h5] at hr; simp at hr
    | true =>
        rw [subscribeCore_all_true store data errs h1 h2 h3 h4 h5] at hr
        simp only [Option.some.injEq] at hr
        rw [← hr]
        simp [recordOf, pyGetD_of_not_in data "preferred_units" (JValue.jstr "Celsius") habs]
  · intro hin hbad
    have h5 : check_units data = false := by
      simp only [check_units]
      rw [pyGetD_of_in data "preferred_units" (JValue.jstr "Celsius") hin]
      exact hbad
    cases h1 : check_required data with
    | false =>
        rw [subscribeCore_required_false store data errs h1]
        exact ⟨rfl, rfl, fun hc => absurd hc (by decide)⟩
    | true =>
    cases h2 : check_unique store data with
    | false =>
        rw [subscribeCore_unique_false store data errs h1 h2]
        exact ⟨rfl, rfl, fun _ hc => absurd hc (by decide)⟩
    | true =>
    cases h3 : check_contact data with
    | false =>
        rw [subscribeCore_contact_false store data errs h1 h2 h3]
        exact ⟨rfl, rfl, fun _ _ hc => absurd hc (by decide)⟩
    | true =>
    cases h4 : check_method data with
    | false =>
        rw [subscribeCore_method_false store data errs h1 h2 h3 h4]
        exact ⟨rfl, rfl, fun _ _ _ hc => absurd hc (by decide)⟩
    | true =>
        rw [subscribeCore_units_false store data errs h1 h2 h3 h4 h5]
        exact ⟨rfl, rfl, fun _ _ _ _ => rfl⟩

/-- Witness for C7 (amended): the valid request without preferred_units is
stored with Celsius, and an otherwise valid request with an invalid unit
gets the invalid-units error. -/
theorem preferred_units_amended_witness :
    (recordOf goodData).preferred_units = JValue.jstr "Celsius" ∧
    (subscribeCore [] dataKelvinFull []).response = errUnits :=
  ⟨(preferred_units_amended [] goodData []).1 (by decide) (recordOf goodData) (by decide),
   ((preferred_units_amended [] dataKelvinFull []).2 (by decide) (by decide)).2.2
     (by decide) (by decide) (by decide) (by decide)⟩

/-- Claim C9: required fields are tested by key membership, so a request
carrying user_id as the empty string passes the missing-fields check and
its empty string reaches the existence check, which can answer the
duplicate-id error for it; contact fields are tested by truthiness, so an
empty-string email_id with no phone_number key is rejected with the
contact-method error. -/
theorem asymmetric_presence_checks :
    (∀ (store : List Record) (data : Dict) (errs : List String),
      pyIn data "user_id" = true → pyIn data "location" = true →
      pyIn data "notification_method" = true →
      pyIndex data "user_id" = JValue.jstr "" →
      (subscribeCore store data errs).response ≠ errMissing ∧
      (user_exists store (JValue.jstr "") = true →
        (subscribeCore store data errs).response = errDuplicate)) ∧
    (∀ (store : List Record) (data : Dict) (errs : List String),
      pyGet data "email_id" = JValue.jstr "" →
      pyIn data "phone_number" = false →
      check_required data = true → check_unique store data = true →
      (subscribeCore store data errs).response = errContact) := by
  constructor
  · intro store data errs hu hl hn hid
    have h1 : check_required data = true := by
      simp [check_required, required_fields, hu, hl, hn]
    refine ⟨subscribeCore_response_ne_missing store data errs h1, ?_⟩
    intro hex
    have h2 : check_unique store data = false := by
      simp only [check_unique, hid, hex, Bool.not_true]
    rw [subscribeCore_unique_false store data errs h1 h2]
  · intro store data errs he hp h1 h2
    have h3 : check_contact data = false := by
      simp [check_contact, he, pyGet_of_not_in data "phone_number" hp, JValue.truthy]
    rw [subscribeCore_contact_false store data errs h1 h2 h3]

/-- Witness for C9: both concrete behaviours, the empty user_id reaching
the duplicate error and the empty email_id drawing the contact error. -/
theorem asymmetric_presence_checks_witness :
    (subscribeCore storeEmptyId dataEmptyUserId []).response = errDuplicate ∧
    (subscribeCore [] dataEmptyEmail []).response = errContact :=
  ⟨(asymmetric_presence_checks.1 storeEmptyId dataEmptyUserId [] (by decide) (by decide)
      (by decide) (by decide)).2 (by decide),
   asymmetric_presence_checks.2 [] dataEmptyEmail [] (by decide) (by decide)
     (by decide) (by decide)⟩
